import Mathlib

/-!
Verification development for the ORBIT frontend ("Cognitive Canvas").

This file gives a shallow embedding of the parts of the repository that the
specification talks about:

* the service worker fetch strategies (`src/frontend/public/sw.js`),
* the offline sync loops (`useOffline.syncPendingData` and the service
  worker's `syncOfflineIntents` / `syncOfflineTasks`) over the queues of
  the `OfflineStorage` service (the service file staged in
  `src/frontend/src/canvas/ThoughtInput.tsx`),
* the canvas state machine (`src/frontend/src/hooks/useCanvasState.ts`),
* the orbital layout (`src/frontend/src/canvas/TaskOrbits.tsx` and the
  `TaskOrbit` component),
* the task store getters (`useTaskStore`).

Numbers that are JavaScript `number`s are embedded as `ℚ` (every literal in
the relevant code is exactly representable), millisecond timestamps as `ℤ`,
and fallible network calls as explicit outcome parameters (`Except`, or an
outcome function for loops).  JavaScript truthiness (`x || d`, `if (x)`) is
embedded explicitly where it matters: `0`, `""` and `undefined` are falsy.
-/

namespace Orbit

/-! ## Service worker fetch handling (`sw.js`) -/

/-- Where a response served by the service worker came from. -/
inductive Served where
  /-- A response found in a cache and returned as is. -/
  | fromCache
  /-- The live network response. -/
  | fromNetwork
  /-- The plain-text `Offline` 503 response of `cacheFirst`. -/
  | offline503
  /-- A cached API response replayed with the `X-Orbit-Offline` header. -/
  | offlineCache
  /-- The JSON offline error body of `handleApiRequest`. -/
  | offlineJson
  /-- The cached `/offline.html` page. -/
  | offlinePage
  deriving DecidableEq, Repr

/-- Outcome of one `fetch` of the request: the promise resolves with a
response whose `ok` flag is recorded, or it rejects. -/
inductive NetResult where
  | success (ok : Bool)
  | failure
  deriving DecidableEq, Repr

/-- The parts of a `fetch` event request that the listener in `sw.js`
inspects: the HTTP method, the URL pathname, and the request mode. -/
structure SWRequest where
  method : String
  pathname : String
  mode : String
  deriving DecidableEq, Repr

/-- The extension alternatives of the `isStaticAsset` regular expression in
`sw.js`. -/
def staticExtensions : List String :=
  ["js", "css", "png", "jpg", "jpeg", "gif", "svg", "ico",
   "woff", "woff2", "ttf", "eot"]

/-- ASCII lower-casing of one character, for the `i` flag of the
`isStaticAsset` regular expression. -/
def charLower (c : Char) : Char :=
  if 65 ≤ c.toNat ∧ c.toNat ≤ 90 then Char.ofNat (c.toNat + 32) else c

/-- `isStaticAsset` from `sw.js`: the pathname matches
`/\.(js|css|png|jpg|jpeg|gif|svg|ico|woff|woff2|ttf|eot)$/i`
(a case-insensitive extension-suffix test). -/
def isStaticAsset (pathname : String) : Bool :=
  staticExtensions.any fun ext =>
    (("." ++ ext).data).isSuffixOf (pathname.data.map charLower)

/-- The `url.pathname.startsWith('/api/')` test of the fetch listener. -/
def apiPrefixed (pathname : String) : Bool :=
  ("/api/".data).isPrefixOf pathname.data

/-- `cacheFirst` from `sw.js`.  `cached` records whether `caches.match`
found a response for the request. -/
def cacheFirst (cached : Bool) (net : NetResult) : Served :=
  if cached then .fromCache
  else
    match net with
    | .success _ => .fromNetwork
    | .failure => .offline503

/-- `networkFirst` from `sw.js`.  `none` means the error is rethrown
(no response is produced). -/
def networkFirst (cached : Bool) (net : NetResult) : Option Served :=
  match net with
  | .success _ => some .fromNetwork
  | .failure => if cached then some .fromCache else none

/-- `networkFirstWithOfflineFallback` from `sw.js`.  `offlinePageCached`
records whether `caches.match` finds `/offline.html`. -/
def networkFirstWithOfflineFallback (cached offlinePageCached : Bool)
    (net : NetResult) : Option Served :=
  match net with
  | .success _ => some .fromNetwork
  | .failure =>
    if cached then some .fromCache
    else if offlinePageCached then some .offlinePage
    else none

/-- `handleApiRequest` from `sw.js`: network first; on network failure the
cached response is replayed with an offline header, else a JSON 503. -/
def handleApiRequest (cached : Bool) (net : NetResult) : Served :=
  match net with
  | .success _ => .fromNetwork
  | .failure => if cached then .offlineCache else .offlineJson

/-- The `fetch` event listener of `sw.js`: non-GET requests are skipped,
`/api/` requests go to `handleApiRequest`, static assets to `cacheFirst`,
navigations to `networkFirstWithOfflineFallback`, everything else to
`networkFirst`.  `none` means no response is produced by the worker. -/
def handleFetch (req : SWRequest) (cached offlinePageCached : Bool)
    (net : NetResult) : Option Served :=
  if req.method ≠ "GET" then none
  else if apiPrefixed req.pathname then some (handleApiRequest cached net)
  else if isStaticAsset req.pathname then some (cacheFirst cached net)
  else if req.mode = "navigate" then
    networkFirstWithOfflineFallback cached offlinePageCached net
  else networkFirst cached net

/-! ## Offline sync loops (`useOffline.syncPendingData` and `sw.js`) -/

/-- Outcome of POSTing one queued entry: the request resolved with
`response.ok`, resolved with a non-ok status, or threw / rejected.
For the axios-backed `api.post` a non-2xx response is turned into a
rejection by the response interceptor, so only `.ok` counts as success
there as well. -/
inductive NetOutcome where
  | ok
  | notOk
  | failed
  deriving DecidableEq, Repr

/-- A record of the `pending_intents` object store of the `OfflineStorage`
service (the service file staged in
`src/frontend/src/canvas/ThoughtInput.tsx`).  The store is created with
`keyPath: 'id', autoIncrement: true`, so every stored record carries the
numeric key the generator assigned on `addPendingIntent` (`id?` in the
`PendingIntent` interface is optional only before insertion); IndexedDB
key generators hand out distinct keys starting at 1.  The optional
`context` payload is forwarded opaquely in the sync POST body and never
inspected, so it is not modelled. -/
structure PendingIntent where
  id : Nat
  text : String
  createdAt : String
  deriving DecidableEq, Repr

/-- A record of the `pending_tasks` object store of the `OfflineStorage`
service (same service file): a queued task action keyed by the task's
string `id` (`keyPath: 'id'`, so the store holds one record per key;
`addPendingTask` uses `store.put`, which overwrites a same-key record).
The optional `data` payload is forwarded opaquely in the sync POST body
and never inspected, so it is not modelled. -/
structure PendingTask where
  id : String
  action : String
  createdAt : String
  deriving DecidableEq, Repr

/-- `syncOfflineIntents` from `sw.js`: iterate over a snapshot of the
pending intents, POST each, and delete it from the store exactly when the
response is ok; a thrown error is caught and the loop continues.  The
result is the content of the object store after the pass. -/
def syncOfflineIntents (outcome : PendingIntent → NetOutcome)
    (store : List PendingIntent) : List PendingIntent :=
  store.foldl
    (fun s intent =>
      if outcome intent = .ok then s.filter (fun e => e.id ≠ intent.id) else s)
    store

/-- `syncOfflineTasks` from `sw.js`: same pass over the pending task
actions, keyed by the task's string id. -/
def syncOfflineTasks (outcome : PendingTask → NetOutcome)
    (store : List PendingTask) : List PendingTask :=
  store.foldl
    (fun s task =>
      if outcome task = .ok then s.filter (fun e => e.id ≠ task.id) else s)
    store

/-- The intent half of `syncPendingData` in `useOffline`: POST each pending
intent; on success remove it `if (intent.id)` is truthy; a rejection is
caught and the loop continues. -/
def syncPendingIntents (outcome : PendingIntent → NetOutcome)
    (store : List PendingIntent) : List PendingIntent :=
  store.foldl
    (fun s intent =>
      if outcome intent = .ok then
        if intent.id ≠ 0 then s.filter (fun e => e.id ≠ intent.id) else s
      else s)
    store

/-- The task half of `syncPendingData` in `useOffline`: POST each pending
task action and remove it on success; a rejection is caught and the loop
continues. -/
def syncPendingTasks (outcome : PendingTask → NetOutcome)
    (store : List PendingTask) : List PendingTask :=
  store.foldl
    (fun s task =>
      if outcome task = .ok then s.filter (fun e => e.id ≠ task.id) else s)
    store

/-! ## Canvas state machine (`useCanvasState.ts`) -/

/-- The `CanvasState` union type. -/
inductive CanvasState where
  | idle
  | inputting
  | listening
  | thinking
  | responding
  | reflecting
  | identity
  | silent
  deriving DecidableEq, Repr

/-- The `CoreState` union type from `FocusCore.tsx`. -/
inductive CoreState where
  | idle
  | listening
  | thinking
  | acting
  | silent
  deriving DecidableEq, Repr

/-- JavaScript `a || d` for an optional string `a`: `undefined` and the
empty string are falsy. -/
def jsOrString : Option String → String → String
  | some s, d => if s = "" then d else s
  | none, d => d

/-- An entry of the `actions` array of an `AIResponse`. -/
structure AIAction where
  id : String
  title : String
  estimatedMinutes : Option ℚ
  deriving DecidableEq, Repr

/-- The `AIResponse` interface of `useCanvasState.ts`. -/
structure AIResponse where
  statement : String
  actions : List AIAction
  confidence : Option String
  intentId : Option String
  deriving DecidableEq, Repr

/-- Status of a `TaskNode` (`TaskOrbits.tsx`). -/
inductive TNStatus where
  | active
  | completing
  | fading
  deriving DecidableEq, Repr

/-- The `TaskNode` interface of `TaskOrbits.tsx`. -/
structure TaskNode where
  id : String
  title : String
  priority : ℚ
  urgency : ℚ
  age : ℚ
  status : TNStatus
  deriving DecidableEq, Repr

/-- The fields of the `CanvasStore` zustand state (the action closures are
modelled as the functions below). -/
structure CanvasStore where
  state : CanvasState
  coreState : CoreState
  urgency : ℚ
  tasks : List TaskNode
  transcript : String
  isTranscribing : Bool
  aiResponse : Option AIResponse
  lastInteraction : ℤ
  silenceThreshold : ℤ
  error : Option String
  deriving DecidableEq, Repr

/-- The initial store passed to `create`, with `Date.now()` at creation
time made explicit. -/
def initialCanvasStore (now : ℤ) : CanvasStore where
  state := .idle
  coreState := .idle
  urgency := 0.3
  tasks := []
  transcript := ""
  isTranscribing := false
  aiResponse := none
  lastInteraction := now
  silenceThreshold := 5 * 60 * 1000
  error := none

/-- `mapToCoreState` from `useCanvasState.ts`. -/
def mapToCoreState : CanvasState → CoreState
  | .listening => .listening
  | .thinking => .thinking
  | .responding => .acting
  | .silent => .silent
  | .reflecting => .silent
  | .identity => .silent
  | _ => .idle

/-- `recordInteraction`: stamp `lastInteraction` with `Date.now()` and
bring a `silent` state back to `idle`, leaving any other state alone. -/
def recordInteraction (now : ℤ) (s : CanvasStore) : CanvasStore :=
  { s with
    lastInteraction := now
    state := if s.state = .silent then .idle else s.state }

/-- `checkSilence`: enter `silent` when more than `silenceThreshold`
milliseconds passed since `lastInteraction` and the state is `idle`;
otherwise no `set` call happens and the store is unchanged. -/
def checkSilence (now : ℤ) (s : CanvasStore) : CanvasStore :=
  if now - s.lastInteraction > s.silenceThreshold ∧ s.state = .idle then
    { s with state := .silent, coreState := .silent }
  else s

/-- A backend task as consumed by `fetchTasks` and `calculateUrgency`:
`priority` and `due_date` are optional, `created_at` / `due_date`
timestamps are milliseconds. -/
structure BackendTask where
  id : String
  title : String
  priority : Option ℚ
  due_date : Option ℤ
  created_at : ℤ
  status : String
  deriving DecidableEq, Repr

/-- The initial urgency of `calculateUrgency`: `task.priority || 0.5`,
where a priority of `0` (or an absent one) is falsy and falls back to
`0.5`. -/
def baseUrgency : Option ℚ → ℚ
  | some p => if p = 0 then 0.5 else p
  | none => 0.5

/-- `daysUntilDue` of `calculateUrgency`:
`(dueDate.getTime() - now.getTime()) / (1000 * 60 * 60 * 24)`. -/
def daysUntilDue (due now : ℤ) : ℚ :=
  ((due : ℚ) - (now : ℚ)) / (1000 * 60 * 60 * 24)

/-- `calculateUrgency` from `useCanvasState.ts`: the base urgency is
raised through `Math.max` when the due date is near, and the result is
capped by `Math.min(urgency, 1)`.  `now` is `Date.now()` in
milliseconds. -/
def calculateUrgency (priority : Option ℚ) (due_date : Option ℤ)
    (now : ℤ) : ℚ :=
  min
    (match due_date with
     | none => baseUrgency priority
     | some due =>
       if daysUntilDue due now < 1 then max (baseUrgency priority) 0.9
       else if daysUntilDue due now < 3 then max (baseUrgency priority) 0.7
       else if daysUntilDue due now < 7 then max (baseUrgency priority) 0.5
       else baseUrgency priority)
    1

/-- A task suggested by `interpretIntent` (`interpretation.suggested_tasks`
entries): the `id` may be absent or empty, in which case `submitInput`
falls back to `action-${i}`. -/
structure SuggestedTask where
  id : Option String
  title : String
  estimated_minutes : Option ℚ
  deriving DecidableEq, Repr

/-- The `interpretResponse.data` consumed by `submitInput`. -/
structure Interpretation where
  interpretation : Option String
  suggested_tasks : Option (List SuggestedTask)
  confidence : Option ℚ
  deriving DecidableEq, Repr

/-- The confidence line built by `submitInput`: a truthy numeric confidence
becomes a rounded percentage, anything falsy the default line. -/
def confidenceText : Option ℚ → String
  | some c =>
    if c = 0 then "Based on your patterns"
    else toString (round (c * 100)) ++ "% confident"
  | none => "Based on your patterns"

/-- The `AIResponse` value assembled by `submitInput` from the
interpretation and the created intent id. -/
def buildAIResponse (it : Interpretation) (intentId : String) : AIResponse where
  statement := jsOrString it.interpretation "I understand. Here\x27s what I suggest."
  actions :=
    match it.suggested_tasks with
    | none => []
    | some ts =>
      ts.enum.map fun p =>
        { id := jsOrString p.2.id ("action-" ++ toString p.1)
          title := p.2.title
          estimatedMinutes := p.2.estimated_minutes }
  confidence := some (confidenceText it.confidence)
  intentId := some intentId

/-- The synchronous prefix of `submitInput`: set the canvas to `thinking`,
clear the error, and record the interaction. -/
def submitInputStart (now : ℤ) (s : CanvasStore) : CanvasStore :=
  recordInteraction now
    { s with state := .thinking, coreState := .thinking, error := none }

/-- `submitInput` from `useCanvasState.ts`, with the results of the two
network calls made explicit: `cre` is `api.createIntent` (yielding the
created intent id), `interp` is `api.interpretIntent` (yielding the
interpretation); a rejection carries the error message the catch block
stores. -/
def submitInput (now : ℤ) (s : CanvasStore) (cre : Except String String)
    (interp : Except String Interpretation) : CanvasStore :=
  let s := submitInputStart now s
  match cre with
  | .error msg => { s with error := some msg, state := .idle, coreState := .idle }
  | .ok intentId =>
    match interp with
    | .error msg => { s with error := some msg, state := .idle, coreState := .idle }
    | .ok it =>
      { s with
        aiResponse := some (buildAIResponse it intentId)
        state := .responding
        coreState := .acting }

/-- `selectAction` from `useCanvasState.ts`, with the `api.createTask`
result made explicit: on success it yields the optional `data.id` of the
created task, on failure the error message.  In both branches a task is
appended locally, the AI response cleared, and the state set to `idle`
(`coreState` pulses `acting`); the new task id is `taskResponse.data.id ||
actionId` on success and `actionId` on failure. -/
def selectAction (s : CanvasStore) (actionId : String)
    (backend : Except String (Option String)) : CanvasStore :=
  match s.aiResponse with
  | none => s
  | some r =>
    match r.actions.find? (fun a => a.id = actionId) with
    | none => s
    | some action =>
      let newId :=
        match backend with
        | .ok dataId => jsOrString dataId actionId
        | .error _ => actionId
      let newTask : TaskNode :=
        { id := newId
          title := action.title
          priority := 0.8
          urgency := 0.5
          age := 0
          status := .active }
      { s with
        tasks := s.tasks ++ [newTask]
        aiResponse := none
        state := .idle
        coreState := .acting }

/-- The immediate (pre-network, pre-timeout) update of `completeTask`:
map over the tasks, switching the targeted task's status to `completing`
via a record spread and leaving every other task as is. -/
def completeTaskImmediate (taskId : String) (tasks : List TaskNode) :
    List TaskNode :=
  tasks.map fun t => if t.id = taskId then { t with status := .completing } else t

/-! ## Orbital layout (`TaskOrbits.tsx`) -/

/-- The minimum orbit radius of `positionedTasks` in `TaskOrbits.tsx`. -/
def minRadius : ℚ := 120

/-- The maximum orbit radius: `Math.min(canvasSize.width,
canvasSize.height) * 0.4`. -/
def maxRadius (width height : ℚ) : ℚ := min width height * 0.4

/-- The orbit radius assigned to a task in `positionedTasks`:
`minRadius + (1 - task.priority) * (maxRadius - minRadius)`. -/
def orbitRadius (width height priority : ℚ) : ℚ :=
  minRadius + (1 - priority) * (maxRadius width height - minRadius)

/-! ## The `TaskOrbit` component and the task store -/

/-- The `TaskStatus` union type (`types/index.ts`). -/
inductive TaskStatus where
  | pending
  | in_progress
  | completed
  | abandoned
  | deferred
  deriving DecidableEq, Repr

/-- The energy / focus levels of a task. -/
inductive EnergyLevel where
  | low
  | medium
  | high
  deriving DecidableEq, Repr

/-- The `Task` interface (`types/index.ts`). -/
structure Task where
  id : String
  title : String
  description : Option String
  status : TaskStatus
  priority : ℚ
  orbital_distance : ℚ
  estimated_minutes : Option ℚ
  actual_minutes : Option ℚ
  energy_required : EnergyLevel
  focus_required : EnergyLevel
  context_tags : List String
  scheduled_for : Option String
  due_date : Option String
  created_at : String
  started_at : Option String
  completed_at : Option String
  goal_id : Option String
  deriving DecidableEq, Repr

/-- The tasks the `TaskOrbit` component renders: nothing for an empty
list, otherwise `tasks.slice(0, 8)`. -/
def taskOrbitVisible (tasks : List Task) : List Task :=
  if tasks.length = 0 then [] else tasks.take 8

/-- The fields of the `useTaskStore` zustand state. -/
structure TaskState where
  tasks : List Task
  focusedTask : Option Task
  isLoading : Bool
  error : Option String
  deriving DecidableEq, Repr

/-- The comparator `(a, b) => a.orbital_distance - b.orbital_distance`
passed to `Array.prototype.sort`, as a Boolean ≤ test. -/
def distLe (a b : Task) : Bool := a.orbital_distance ≤ b.orbital_distance

/-- `getTasksByOrbitalDistance` from the task store: copy the task array,
keep the `pending` / `in_progress` tasks, sort the copy by ascending
`orbital_distance`, and leave the store itself untouched (the copy is what
gets sorted in place).  The returned pair is (result, store after the
call). -/
def getTasksByOrbitalDistance (s : TaskState) : List Task × TaskState :=
  (((s.tasks.filter fun t =>
      t.status = TaskStatus.pending ∨ t.status = TaskStatus.in_progress).mergeSort
    distLe), s)

/-! ## Theorems -/

/-- Membership in the queue left by a delete-on-success pass: an element
survives the fold iff it was in the starting queue and no processed entry
with its key satisfied the deletion condition. -/
theorem mem_foldl_filter {E ι : Type} [DecidableEq ι] (key : E → ι)
    (cond : E → Prop) [DecidablePred cond] (l : List E) (acc : List E) (e : E) :
    (e ∈ l.foldl
        (fun s x => if cond x then s.filter (fun y => key y ≠ key x) else s) acc
      ↔ e ∈ acc ∧ ∀ x ∈ l, cond x → key e ≠ key x) := by
  induction l generalizing acc with
  | nil => simp
  | cons x xs ih =>
    simp only [List.foldl_cons]
    rw [ih]
    by_cases hx : cond x
    · simp only [if_pos hx, List.mem_filter, decide_eq_true_eq, List.mem_cons]
      constructor
      · rintro ⟨⟨hacc, hne⟩, hall⟩
        exact ⟨hacc, fun y hy hcy => by
          rcases hy with rfl | hy
          · exact hne
          · exact hall y hy hcy⟩
      · rintro ⟨hacc, hall⟩
        exact ⟨⟨hacc, hall x (Or.inl rfl) hx⟩,
          fun y hy hcy => hall y (Or.inr hy) hcy⟩
    · simp only [if_neg hx, List.mem_cons]
      constructor
      · rintro ⟨hacc, hall⟩
        exact ⟨hacc, fun y hy hcy => by
          rcases hy with rfl | hy
          · exact absurd hcy hx
          · exact hall y hy hcy⟩
      · rintro ⟨hacc, hall⟩
        exact ⟨hacc, fun y hy hcy => hall y (Or.inr hy) hcy⟩

/-- When the keys of the queue are distinct, an entry of the queue survives
the pass iff its own deletion condition fails. -/
theorem mem_syncQueue {E ι : Type} [DecidableEq ι] (key : E → ι)
    (cond : E → Prop) [DecidablePred cond] (store : List E)
    (hkey : (store.map key).Nodup) (e : E) (he : e ∈ store) :
    (e ∈ store.foldl
        (fun s x => if cond x then s.filter (fun y => key y ≠ key x) else s) store
      ↔ ¬ cond e) := by
  rw [mem_foldl_filter]
  constructor
  · rintro ⟨-, h⟩ hc
    exact h e he hc rfl
  · intro hnc
    refine ⟨he, fun x hx hcx hkeq => hnc ?_⟩
    have hex : e = x := List.inj_on_of_nodup_map hkey he hx hkeq
    rwa [hex]

/-- The hook's intent pass with its truthiness guard, as a single-condition
pass. -/
theorem syncPendingIntents_eq (outcome : PendingIntent → NetOutcome)
    (store : List PendingIntent) :
    syncPendingIntents outcome store =
      store.foldl
        (fun s x =>
          if outcome x = .ok ∧ x.id ≠ 0 then s.filter (fun y => y.id ≠ x.id) else s)
        store := by
  unfold syncPendingIntents
  congr 1
  funext s x
  by_cases h1 : outcome x = .ok <;> by_cases h2 : x.id ≠ 0 <;> simp [h1, h2]

/-- C1 (counterexample): the claim says every GET the worker handles for
which a cached response exists is answered from the cache before the
network is used; but an API GET with a cached response and a live network
is answered from the network (`handleApiRequest` fetches first). -/
theorem C1_counterexample :
    handleFetch ⟨"GET", "/api/v1/planner/tasks/today", "cors"⟩ true true
        (.success true) = some .fromNetwork
    ∧ some Served.fromNetwork ≠ some Served.fromCache := by
  exact ⟨rfl, by decide⟩

/-- C1 (amended): the cache-then-network strategy holds exactly for
static-asset GETs outside `/api/`: such a request with a cached response is
served from the cache without touching the network; every other GET the
worker handles is network-first — a successful network response is served
even when a cached one exists. -/
theorem C1_cache_strategy (req : SWRequest) (cached offlinePageCached : Bool)
    (net : NetResult) (hGet : req.method = "GET") :
    (apiPrefixed req.pathname = false → isStaticAsset req.pathname = true →
        cached = true →
        handleFetch req cached offlinePageCached net = some .fromCache)
    ∧ ((apiPrefixed req.pathname = true ∨ isStaticAsset req.pathname = false) →
        ∀ ok, net = .success ok →
          handleFetch req cached offlinePageCached net = some .fromNetwork) := by
  constructor
  · intro hapi hstatic hcached
    subst hcached
    unfold handleFetch cacheFirst
    simp [hGet, hapi, hstatic]
  · rintro hcase ok rfl
    unfold handleFetch
    rcases hcase with hapi | hstatic
    · simp [hGet, hapi, handleApiRequest]
    · by_cases hapi : apiPrefixed req.pathname
      · simp [hGet, hapi, handleApiRequest]
      · by_cases hnav : req.mode = "navigate" <;>
          simp [hGet, hapi, hstatic, hnav, networkFirst, cacheFirst,
            networkFirstWithOfflineFallback]

/-- C1 (witness): the amended strategy at two concrete requests: a cached
static asset is served from the cache even with the network down, and an
API request with a cached copy is served from the network when it is up. -/
theorem C1_cache_strategy_witness :
    handleFetch ⟨"GET", "/assets/app.js", "cors"⟩ true true .failure
        = some .fromCache
    ∧ handleFetch ⟨"GET", "/api/v1/intent/active", "cors"⟩ true true
        (.success true) = some .fromNetwork := by
  exact ⟨(C1_cache_strategy ⟨"GET", "/assets/app.js", "cors"⟩ true true
      .failure rfl).1 (by decide) (by decide) rfl,
    (C1_cache_strategy ⟨"GET", "/api/v1/intent/active", "cors"⟩ true true
      (.success true) rfl).2 (Or.inl (by decide)) true rfl⟩

/-- C2: during a sync pass (the hook's `syncPendingData` and the service
worker's `syncOfflineIntents` / `syncOfflineTasks`), a queued entry is
removed from device storage iff its POST succeeds; an entry whose request
fails stays queued, and a failure does not stop the remaining entries from
being attempted — each entry's fate depends only on its own outcome.
The hypotheses are the invariants of the `OfflineStorage` object stores:
keys of an IndexedDB object store are distinct, and `pending_intents`
keys come from the auto-increment generator and are therefore positive
(which is what discharges the hook's `if (intent.id)` truthiness
guard). -/
theorem C2_sync_removes_iff_success (outI : PendingIntent → NetOutcome)
    (outT : PendingTask → NetOutcome)
    (intents : List PendingIntent) (tasks : List PendingTask)
    (hI : (intents.map PendingIntent.id).Nodup)
    (hT : (tasks.map PendingTask.id).Nodup)
    (hpos : ∀ e ∈ intents, e.id ≠ 0) :
    (∀ e ∈ intents, (e ∈ syncPendingIntents outI intents ↔ outI e ≠ .ok))
    ∧ (∀ e ∈ tasks, (e ∈ syncPendingTasks outT tasks ↔ outT e ≠ .ok))
    ∧ (∀ e ∈ intents, (e ∈ syncOfflineIntents outI intents ↔ outI e ≠ .ok))
    ∧ (∀ e ∈ tasks, (e ∈ syncOfflineTasks outT tasks ↔ outT e ≠ .ok)) := by
  refine ⟨fun e he => ?_, fun e he => ?_, fun e he => ?_, fun e he => ?_⟩
  · rw [syncPendingIntents_eq,
      mem_syncQueue PendingIntent.id (fun x => outI x = .ok ∧ x.id ≠ 0) intents hI e he]
    constructor
    · intro h hc
      exact h ⟨hc, hpos e he⟩
    · rintro h ⟨hc, -⟩
      exact h hc
  · exact mem_syncQueue PendingTask.id (fun x => outT x = .ok) tasks hT e he
  · exact mem_syncQueue PendingIntent.id (fun x => outI x = .ok) intents hI e he
  · exact mem_syncQueue PendingTask.id (fun x => outT x = .ok) tasks hT e he

/-- C2 (witness): a concrete pass over two intents and two tasks where the
first request fails and the second succeeds: the failing entries stay, the
succeeding ones are removed. -/
theorem C2_sync_removes_iff_success_witness :
    (⟨1, "a", "d1"⟩ ∈ syncPendingIntents
        (fun e => if e.id = 1 then .failed else .ok)
        [⟨1, "a", "d1"⟩, ⟨2, "b", "d2"⟩]
      ↔ (if (1 : Nat) = 1 then NetOutcome.failed else .ok) ≠ .ok)
    ∧ (⟨"t2", "complete", "d2"⟩ ∈ syncPendingTasks
        (fun e => if e.id = "t1" then .failed else .ok)
        [⟨"t1", "start", "d1"⟩, ⟨"t2", "complete", "d2"⟩]
      ↔ (if ("t2" : String) = "t1" then NetOutcome.failed else .ok) ≠ .ok) := by
  refine ⟨?_, ?_⟩
  · exact (C2_sync_removes_iff_success
      (fun e => if e.id = 1 then .failed else .ok)
      (fun e => if e.id = "t1" then .failed else .ok)
      [⟨1, "a", "d1"⟩, ⟨2, "b", "d2"⟩]
      [⟨"t1", "start", "d1"⟩, ⟨"t2", "complete", "d2"⟩]
      (by decide) (by decide) (by decide)).1 ⟨1, "a", "d1"⟩ (by decide)
  · exact (C2_sync_removes_iff_success
      (fun e => if e.id = 1 then .failed else .ok)
      (fun e => if e.id = "t1" then .failed else .ok)
      [⟨1, "a", "d1"⟩, ⟨2, "b", "d2"⟩]
      [⟨"t1", "start", "d1"⟩, ⟨"t2", "complete", "d2"⟩]
      (by decide) (by decide) (by decide)).2.1 ⟨"t2", "complete", "d2"⟩ (by decide)

/-- C3 (counterexample): the claim says a successful `createTask` always
leaves the backend-assigned id on the appended task; but when the backend
succeeds with a falsy id (here the empty string) the code falls back to
`actionId` (`taskResponse.data.id || actionId`), so the appended task does
not carry the backend-assigned id. -/
theorem C3_counterexample :
    ((selectAction
        { state := .responding, coreState := .acting, urgency := 0.3,
          tasks := [], transcript := "", isTranscribing := false,
          aiResponse := some ⟨"s", [⟨"a1", "T", none⟩], none, some "i1"⟩,
          lastInteraction := 0, silenceThreshold := 300000, error := none }
        "a1" (Except.ok (some ""))).tasks.map TaskNode.id = ["a1"])
    ∧ ("a1" : String) ≠ "" := by
  exact ⟨rfl, by decide⟩

/-- C3 (amended): for every action id present in the current AI response's
action list, `selectAction` ends with a task for that action appended to
the local task list, the AI response cleared and the state set to `idle`,
whether the backend call succeeds or fails; on failure the appended task
carries the action id, and on success it carries the backend-assigned id
when that id is truthy and the action id otherwise. -/
theorem C3_optimistic_append (s : CanvasStore) (actionId : String)
    (backend : Except String (Option String)) (r : AIResponse)
    (hr : s.aiResponse = some r)
    (hex : ∃ a ∈ r.actions, a.id = actionId) :
    ∃ a newId,
      r.actions.find? (fun x => x.id = actionId) = some a
      ∧ (selectAction s actionId backend).tasks
          = s.tasks ++ [{ id := newId, title := a.title, priority := 0.8,
                          urgency := 0.5, age := 0, status := .active }]
      ∧ (selectAction s actionId backend).aiResponse = none
      ∧ (selectAction s actionId backend).state = .idle
      ∧ (∀ msg, backend = .error msg → newId = actionId)
      ∧ (∀ dataId, backend = .ok dataId → newId = jsOrString dataId actionId) := by
  have hsome : (r.actions.find? (fun x => x.id = actionId)).isSome = true := by
    rw [List.find?_isSome]
    obtain ⟨a, ha, hid⟩ := hex
    exact ⟨a, ha, by simp [hid]⟩
  obtain ⟨a, ha⟩ := Option.isSome_iff_exists.mp hsome
  refine ⟨a, match backend with
    | .ok dataId => jsOrString dataId actionId
    | .error _ => actionId, ha, ?_, ?_, ?_, ?_, ?_⟩
  · unfold selectAction
    rw [hr]
    simp only [ha]
  · unfold selectAction
    rw [hr]
    simp only [ha]
  · unfold selectAction
    rw [hr]
    simp only [ha]
  · rintro msg rfl
    rfl
  · rintro dataId rfl
    rfl

/-- C3 (witness): the amended behaviour at a concrete store, one action
`a1`, and a failing backend call: the task list gains one task with id
`a1`, the response is cleared, the state is `idle`. -/
theorem C3_optimistic_append_witness :
    ∃ a newId,
      (AIResponse.actions ⟨"s", [⟨"a1", "T", none⟩], none, some "i1"⟩).find?
          (fun x => x.id = "a1") = some a
      ∧ (selectAction
          { state := .responding, coreState := .acting, urgency := 0.3,
            tasks := [], transcript := "", isTranscribing := false,
            aiResponse := some ⟨"s", [⟨"a1", "T", none⟩], none, some "i1"⟩,
            lastInteraction := 0, silenceThreshold := 300000, error := none }
          "a1" (Except.error "network down")).tasks
          = [] ++ [{ id := newId, title := a.title, priority := 0.8,
                     urgency := 0.5, age := 0, status := .active }]
      ∧ (selectAction
          { state := .responding, coreState := .acting, urgency := 0.3,
            tasks := [], transcript := "", isTranscribing := false,
            aiResponse := some ⟨"s", [⟨"a1", "T", none⟩], none, some "i1"⟩,
            lastInteraction := 0, silenceThreshold := 300000, error := none }
          "a1" (Except.error "network down")).aiResponse = none
      ∧ (selectAction
          { state := .responding, coreState := .acting, urgency := 0.3,
            tasks := [], transcript := "", isTranscribing := false,
            aiResponse := some ⟨"s", [⟨"a1", "T", none⟩], none, some "i1"⟩,
            lastInteraction := 0, silenceThreshold := 300000, error := none }
          "a1" (Except.error "network down")).state = .idle
      ∧ (∀ msg, Except.error (α := Option String) (ε := String) "network down"
            = Except.error msg → newId = "a1")
      ∧ (∀ dataId, Except.error (α := Option String) (ε := String) "network down"
            = Except.ok dataId → newId = jsOrString dataId "a1") := by
  exact C3_optimistic_append
    { state := .responding, coreState := .acting, urgency := 0.3,
      tasks := [], transcript := "", isTranscribing := false,
      aiResponse := some ⟨"s", [⟨"a1", "T", none⟩], none, some "i1"⟩,
      lastInteraction := 0, silenceThreshold := 300000, error := none }
    "a1" (Except.error "network down")
    ⟨"s", [⟨"a1", "T", none⟩], none, some "i1"⟩ rfl
    ⟨⟨"a1", "T", none⟩, by simp, rfl⟩

/-- C4: `checkSilence` moves the store to `silent` iff the state is `idle`
and more than `silenceThreshold` milliseconds passed since
`lastInteraction`, and otherwise leaves the store unchanged (so `silent` is
never entered from any other state by it); `recordInteraction` brings a
`silent` state back to `idle`; and the threshold of the initial store is
5 minutes. -/
theorem C4_silence (now : ℤ) (s : CanvasStore) :
    ((now - s.lastInteraction > s.silenceThreshold ∧ s.state = .idle) →
        checkSilence now s = { s with state := .silent, coreState := .silent })
    ∧ (¬ (now - s.lastInteraction > s.silenceThreshold ∧ s.state = .idle) →
        checkSilence now s = s)
    ∧ (s.state = .silent → (recordInteraction now s).state = .idle)
    ∧ (initialCanvasStore now).silenceThreshold = 5 * 60 * 1000 := by
  refine ⟨fun h => ?_, fun h => ?_, fun h => ?_, rfl⟩
  · unfold checkSilence
    rw [if_pos h]
  · unfold checkSilence
    rw [if_neg h]
  · unfold recordInteraction
    simp [h]

/-- C4 (witness): on the initial store, five minutes and a millisecond of
silence trips the silent state, a younger interaction does not, and
`recordInteraction` wakes a silent store. -/
theorem C4_silence_witness :
    checkSilence 300001 (initialCanvasStore 0)
      = { initialCanvasStore 0 with state := .silent, coreState := .silent }
    ∧ checkSilence 100 (initialCanvasStore 0) = initialCanvasStore 0
    ∧ (recordInteraction 100
        { initialCanvasStore 0 with state := .silent }).state = .idle := by
  exact ⟨(C4_silence 300001 (initialCanvasStore 0)).1 (by constructor <;> decide),
    (C4_silence 100 (initialCanvasStore 0)).2.1 (by decide),
    (C4_silence 100 { initialCanvasStore 0 with state := .silent }).2.2.1 rfl⟩

/-- C5 (counterexample): the claim says `calculateUrgency` returns the
task's priority (with `0.5` only for an absent one); but a present
priority of `0` is falsy in `task.priority || 0.5`, so the function
returns `0.5`, not the priority `0`. -/
theorem C5_counterexample :
    calculateUrgency (some 0) none 0 = 0.5 ∧ (0.5 : ℚ) ≠ 0 := by
  constructor
  · unfold calculateUrgency baseUrgency
    norm_num
  · norm_num

/-- C5 (amended): `calculateUrgency` returns the task's priority — with
`0.5` when the priority is absent or zero — raised to at least `0.9`,
`0.7`, `0.5` when the due date is less than 1, 3, 7 days away, capped at
`1`; for a priority in `[0, 1]` the result lies in `[0, 1]`. -/
theorem C5_urgency (now due : ℤ) (p : ℚ) (hp0 : 0 ≤ p) (hp1 : p ≤ 1) :
    calculateUrgency (some 0) none now = 0.5
    ∧ calculateUrgency none none now = 0.5
    ∧ (p ≠ 0 → calculateUrgency (some p) none now = p)
    ∧ (daysUntilDue due now < 1 →
        0.9 ≤ calculateUrgency (some p) (some due) now)
    ∧ (daysUntilDue due now < 3 →
        0.7 ≤ calculateUrgency (some p) (some due) now)
    ∧ (daysUntilDue due now < 7 →
        0.5 ≤ calculateUrgency (some p) (some due) now)
    ∧ (∀ d : Option ℤ, 0 ≤ calculateUrgency (some p) d now
        ∧ calculateUrgency (some p) d now ≤ 1) := by
  have hbz : baseUrgency (some 0) = 0.5 := by
    dsimp only [baseUrgency]
    norm_num
  have hbp : p ≠ 0 → baseUrgency (some p) = p := fun hp => by
    dsimp only [baseUrgency]
    rw [if_neg hp]
  have hb0 : 0 ≤ baseUrgency (some p) := by
    dsimp only [baseUrgency]
    split
    · norm_num
    · exact hp0
  have hb1 : baseUrgency (some p) ≤ 1 := by
    dsimp only [baseUrgency]
    split
    · norm_num
    · exact hp1
  refine ⟨?_, ?_, fun hp => ?_, fun h => ?_, fun h => ?_, fun h => ?_, fun d => ?_⟩
  · dsimp only [calculateUrgency]
    rw [hbz, min_eq_left (by norm_num : (0.5 : ℚ) ≤ 1)]
  · dsimp only [calculateUrgency, baseUrgency]
    rw [min_eq_left (by norm_num : (0.5 : ℚ) ≤ 1)]
  · dsimp only [calculateUrgency]
    rw [hbp hp, min_eq_left hp1]
  · dsimp only [calculateUrgency]
    rw [if_pos h]
    exact le_min (le_max_right _ _) (by norm_num)
  · dsimp only [calculateUrgency]
    by_cases h1 : daysUntilDue due now < 1
    · rw [if_pos h1]
      exact le_min (le_trans (by norm_num) (le_max_right _ _)) (by norm_num)
    · rw [if_neg h1, if_pos h]
      exact le_min (le_max_right _ _) (by norm_num)
  · dsimp only [calculateUrgency]
    by_cases h1 : daysUntilDue due now < 1
    · rw [if_pos h1]
      exact le_min (le_trans (by norm_num) (le_max_right _ _)) (by norm_num)
    · rw [if_neg h1]
      by_cases h3 : daysUntilDue due now < 3
      · rw [if_pos h3]
        exact le_min (le_trans (by norm_num) (le_max_right _ _)) (by norm_num)
      · rw [if_neg h3, if_pos h]
        exact le_min (le_max_right _ _) (by norm_num)
  · cases d with
    | none =>
      dsimp only [calculateUrgency]
      exact ⟨le_min hb0 (by norm_num), min_le_right _ _⟩
    | some due =>
      dsimp only [calculateUrgency]
      refine ⟨?_, min_le_right _ _⟩
      split
      · exact le_min (le_trans hb0 (le_max_left _ _)) (by norm_num)
      · split
        · exact le_min (le_trans hb0 (le_max_left _ _)) (by norm_num)
        · split
          · exact le_min (le_trans hb0 (le_max_left _ _)) (by norm_num)
          · exact le_min hb0 (by norm_num)

/-- C5 (witness): the amended behaviour at concrete inputs: priority 0.3
without a due date stays 0.3; with a due date half a day away it is raised
to 0.9; and the result is within [0, 1]. -/
theorem C5_urgency_witness :
    calculateUrgency (some 0.3) none 0 = 0.3
    ∧ (0.9 : ℚ) ≤ calculateUrgency (some 0.3) (some 43200000) 0
    ∧ 0 ≤ calculateUrgency (some 0.3) (some 43200000) 0
    ∧ calculateUrgency (some 0.3) (some 43200000) 0 ≤ 1 := by
  have hlt : daysUntilDue 43200000 0 < 1 := by
    unfold daysUntilDue
    norm_num
  have base := C5_urgency 0 43200000 0.3 (by norm_num) (by norm_num)
  exact ⟨base.2.2.1 (by norm_num), base.2.2.2.1 hlt,
    (base.2.2.2.2.2.2 (some 43200000)).1, (base.2.2.2.2.2.2 (some 43200000)).2⟩

/-- C6 (counterexample): on a 100×100 canvas the maximum radius
(`min(w, h) * 0.4 = 40`) is below the minimum radius 120, so the radius
formula is reversed: the priority-1 task sits at 120, the priority-0 task
at 40 — the higher-priority task is placed at a strictly larger radius,
and the priority-0 radius is below the claimed minimum of 120. -/
theorem C6_counterexample :
    ¬ (orbitRadius 100 100 1 ≤ orbitRadius 100 100 0)
    ∧ ¬ (minRadius ≤ orbitRadius 100 100 0) := by
  unfold orbitRadius maxRadius minRadius
  norm_num

/-- C6 (amended): each task's orbit radius equals
`minRadius + (1 - priority) * (maxRadius - minRadius)`, and provided the
canvas is large enough that the maximum radius is at least the minimum
radius (the smaller canvas dimension is at least 300), a higher-priority
task is placed at a radius no larger than a lower-priority one and every
radius for a priority in [0, 1] lies between `minRadius` (120) and
`maxRadius`. -/
theorem C6_orbit_layout (w h p q : ℚ) (hmm : minRadius ≤ maxRadius w h)
    (hp0 : 0 ≤ p) (hp1 : p ≤ 1) (hq0 : 0 ≤ q) (hq1 : q ≤ 1) :
    orbitRadius w h p = minRadius + (1 - p) * (maxRadius w h - minRadius)
    ∧ (q ≤ p → orbitRadius w h p ≤ orbitRadius w h q)
    ∧ minRadius ≤ orbitRadius w h p
    ∧ orbitRadius w h p ≤ maxRadius w h := by
  refine ⟨rfl, fun hqp => ?_, ?_, ?_⟩
  · unfold orbitRadius
    have hstep : (1 - p) * (maxRadius w h - minRadius)
        ≤ (1 - q) * (maxRadius w h - minRadius) :=
      mul_le_mul_of_nonneg_right (by linarith) (by linarith)
    linarith
  · unfold orbitRadius
    nlinarith [mul_nonneg (by linarith : (0 : ℚ) ≤ 1 - p)
      (by linarith : (0 : ℚ) ≤ maxRadius w h - minRadius)]
  · unfold orbitRadius
    nlinarith [mul_le_mul_of_nonneg_right (by linarith : 1 - p ≤ 1)
      (by linarith : (0 : ℚ) ≤ maxRadius w h - minRadius)]

/-- C6 (witness): on a 400×400 canvas (maximum radius 160 ≥ 120), priority
0.9 orbits no farther out than priority 0.4, and its radius is between 120
and 160. -/
theorem C6_orbit_layout_witness :
    orbitRadius 400 400 0.9 ≤ orbitRadius 400 400 0.4
    ∧ minRadius ≤ orbitRadius 400 400 0.9
    ∧ orbitRadius 400 400 0.9 ≤ maxRadius 400 400 := by
  have base := C6_orbit_layout 400 400 0.9 0.4
    (by unfold minRadius maxRadius; norm_num) (by norm_num) (by norm_num)
    (by norm_num) (by norm_num)
  exact ⟨base.2.1 (by norm_num), base.2.2.1, base.2.2.2⟩

/-- C7: `submitInput` first sets the canvas to `thinking` with the error
cleared; if either network call fails it ends with the error set to the
failure message, canvas and core state back to `idle`, and the task list
unchanged; if both succeed it ends in `responding` with a non-null AI
response whose `intentId` is the created intent's id. -/
theorem C7_submitInput (now : ℤ) (s : CanvasStore) (cre : Except String String)
    (interp : Except String Interpretation) :
    (submitInputStart now s).state = .thinking
    ∧ (submitInputStart now s).error = none
    ∧ (∀ msg, cre = .error msg →
        (submitInput now s cre interp).error = some msg
        ∧ (submitInput now s cre interp).state = .idle
        ∧ (submitInput now s cre interp).coreState = .idle
        ∧ (submitInput now s cre interp).tasks = s.tasks)
    ∧ (∀ intentId msg, cre = .ok intentId → interp = .error msg →
        (submitInput now s cre interp).error = some msg
        ∧ (submitInput now s cre interp).state = .idle
        ∧ (submitInput now s cre interp).coreState = .idle
        ∧ (submitInput now s cre interp).tasks = s.tasks)
    ∧ (∀ intentId it, cre = .ok intentId → interp = .ok it →
        (submitInput now s cre interp).state = .responding
        ∧ (submitInput now s cre interp).aiResponse
            = some (buildAIResponse it intentId)
        ∧ (buildAIResponse it intentId).intentId = some intentId) := by
  refine ⟨?_, ?_, ?_, ?_, ?_⟩
  · simp [submitInputStart, recordInteraction]
  · simp [submitInputStart, recordInteraction]
  · rintro msg rfl
    refine ⟨rfl, rfl, rfl, ?_⟩
    simp [submitInput, submitInputStart, recordInteraction]
  · rintro intentId msg rfl rfl
    refine ⟨rfl, rfl, rfl, ?_⟩
    simp [submitInput, submitInputStart, recordInteraction]
  · rintro intentId it rfl rfl
    exact ⟨rfl, rfl, rfl⟩

/-- C7 (witness): a failing `createIntent` at a concrete store ends idle
with the message stored and the tasks untouched, and a successful pair of
calls ends responding with the intent id on the response. -/
theorem C7_submitInput_witness :
    (submitInput 0 (initialCanvasStore 0) (Except.error "boom")
        (Except.ok ⟨none, none, none⟩)).error = some "boom"
    ∧ (submitInput 0 (initialCanvasStore 0) (Except.error "boom")
        (Except.ok ⟨none, none, none⟩)).state = .idle
    ∧ (submitInput 0 (initialCanvasStore 0) (Except.ok "intent-1")
        (Except.ok ⟨none, none, none⟩)).state = .responding
    ∧ (buildAIResponse ⟨none, none, none⟩ "intent-1").intentId
        = some "intent-1" := by
  have h1 := (C7_submitInput 0 (initialCanvasStore 0) (Except.error "boom")
    (Except.ok ⟨none, none, none⟩)).2.2.1 "boom" rfl
  have h2 := (C7_submitInput 0 (initialCanvasStore 0) (Except.ok "intent-1")
    (Except.ok ⟨none, none, none⟩)).2.2.2.2 "intent-1" ⟨none, none, none⟩ rfl rfl
  exact ⟨h1.1, h1.2.1, h2.1, h2.2.2⟩

/-- C8: the `TaskOrbit` component renders exactly the first (at most 8)
tasks of its input: the visible list is `tasks.take 8`, it never exceeds 8
entries, positions from the ninth onward are never shown, the first eight
positions agree with the input, and an empty input renders nothing. -/
theorem C8_orbit_caps_at_eight (tasks : List Task) :
    taskOrbitVisible tasks = tasks.take 8
    ∧ (taskOrbitVisible tasks).length ≤ 8
    ∧ (∀ i, 8 ≤ i → (taskOrbitVisible tasks)[i]? = none)
    ∧ (∀ i, i < 8 → (taskOrbitVisible tasks)[i]? = tasks[i]?)
    ∧ taskOrbitVisible ([] : List Task) = [] := by
  have heq : taskOrbitVisible tasks = tasks.take 8 := by
    unfold taskOrbitVisible
    split
    · rename_i hlen
      rw [List.length_eq_zero.mp hlen]
      rfl
    · rfl
  refine ⟨heq, ?_, fun i hi => ?_, fun i hi => ?_, rfl⟩
  · rw [heq, List.length_take]
    exact min_le_left _ _
  · rw [heq, List.getElem?_take]
    rw [if_neg (by omega)]
  · rw [heq, List.getElem?_take, if_pos hi]

/-- C9: `getTasksByOrbitalDistance` returns exactly the `pending` and
`in_progress` tasks of the store, in non-decreasing `orbital_distance`
order, and leaves the store's task list unmodified (the sort happens on a
spread copy). -/
theorem C9_getTasksByOrbitalDistance (s : TaskState) :
    ((getTasksByOrbitalDistance s).1).Perm
      (s.tasks.filter fun t =>
        t.status = TaskStatus.pending ∨ t.status = TaskStatus.in_progress)
    ∧ List.Sorted (fun a b : Task => a.orbital_distance ≤ b.orbital_distance)
        (getTasksByOrbitalDistance s).1
    ∧ (∀ t, t ∈ (getTasksByOrbitalDistance s).1 ↔
        t ∈ s.tasks ∧ (t.status = TaskStatus.pending
          ∨ t.status = TaskStatus.in_progress))
    ∧ (getTasksByOrbitalDistance s).2 = s := by
  refine ⟨List.mergeSort_perm _ _, ?_, fun t => ?_, rfl⟩
  · have hp := @List.sorted_mergeSort Task distLe
      (fun a b c hab hbc => by
        unfold distLe at *
        simp only [decide_eq_true_eq] at *
        exact le_trans hab hbc)
      (fun a b => by
        unfold distLe
        simp only [Bool.or_eq_true, decide_eq_true_eq]
        exact le_total _ _)
      (s.tasks.filter fun t =>
        t.status = TaskStatus.pending ∨ t.status = TaskStatus.in_progress)
    exact hp.imp (fun hab => by
      unfold distLe at hab
      simpa using hab)
  · unfold getTasksByOrbitalDistance
    rw [List.mem_mergeSort, List.mem_filter]
    simp

/-- C10: the immediate update of `completeTask` is a frame-preserving
status flip: the length is unchanged, the task at each position whose id
matches gets status `completing` with every other field intact, and every
task with a different id is left entirely unchanged. -/
theorem C10_completeTask_frame (taskId : String) (tasks : List TaskNode) :
    (completeTaskImmediate taskId tasks).length = tasks.length
    ∧ (∀ (i : ℕ) (t : TaskNode), tasks[i]? = some t →
        (t.id = taskId →
          (completeTaskImmediate taskId tasks)[i]?
            = some { t with status := .completing })
        ∧ (t.id ≠ taskId →
          (completeTaskImmediate taskId tasks)[i]? = some t)) := by
  constructor
  · exact List.length_map _ _
  · intro i t ht
    constructor
    · intro hid
      unfold completeTaskImmediate
      rw [List.getElem?_map, ht]
      simp [hid]
    · intro hid
      unfold completeTaskImmediate
      rw [List.getElem?_map, ht]
      simp [hid]

/-- C10 (witness): on a two-task list, targeting `t1` flips only the first
task's status and leaves the second untouched. -/
theorem C10_completeTask_frame_witness :
    (completeTaskImmediate "t1"
      [⟨"t1", "write", 0.8, 0.5, 0, .active⟩,
       ⟨"t2", "read", 0.4, 0.2, 1, .active⟩])[0]?
        = some ⟨"t1", "write", 0.8, 0.5, 0, .completing⟩
    ∧ (completeTaskImmediate "t1"
      [⟨"t1", "write", 0.8, 0.5, 0, .active⟩,
       ⟨"t2", "read", 0.4, 0.2, 1, .active⟩])[1]?
        = some ⟨"t2", "read", 0.4, 0.2, 1, .active⟩ := by
  have base := (C10_completeTask_frame "t1"
    [⟨"t1", "write", 0.8, 0.5, 0, .active⟩,
     ⟨"t2", "read", 0.4, 0.2, 1, .active⟩]).2
  exact ⟨(base 0 ⟨"t1", "write", 0.8, 0.5, 0, .active⟩ rfl).1 rfl,
    (base 1 ⟨"t2", "read", 0.4, 0.2, 1, .active⟩ rfl).2 (by decide)⟩

end Orbit
